import Mathlib

/-!
Shallow embedding of the field-mapping layer of the `import_export` package
(`fields.py`, `instance_loaders.py`).

Python scalar cell values are modelled by `PyVal`, exceptions by `PyExn`,
rows by association lists from column name to value.  Widgets and the
persistence layer are external capabilities (the spec's §6) and are modelled
as function-valued parameters; everything else is translated directly from
the source.
-/

set_option maxHeartbeats 1000000

namespace ImportExport

/-- An exact decimal/rational number `num / den` (`den > 0` in every value
this development constructs), kept unnormalized so that all arithmetic is
kernel-reducible integer arithmetic.  Models Python `Decimal`. -/
structure Dec where
  num : Int
  den : Nat
deriving DecidableEq, Repr

/-- Value equality of decimals (`Decimal('1.0') == Decimal('1')`):
cross-multiplication. -/
def Dec.eqv (a b : Dec) : Bool := a.num * b.den == b.num * a.den

instance : BEq Dec := ⟨Dec.eqv⟩

/-- A Python scalar value as it appears in a dataset cell or on a flat model
instance: `None`, strings, ints, `Decimal` (as `Dec`), booleans and lists. -/
inductive PyVal where
  | none
  | str (s : String)
  | int (n : Int)
  | dec (d : Dec)
  | bool (b : Bool)
  | list (xs : List PyVal)
deriving Repr

/-- Structural (Python `==`) equality on `PyVal`. -/
def PyVal.beq : PyVal → PyVal → Bool
  | .none, .none => true
  | .str a, .str b => a == b
  | .int a, .int b => a == b
  | .dec a, .dec b => Dec.eqv a b
  | .bool a, .bool b => a == b
  | .list xs, .list ys => beqList xs ys
  | _, _ => false
where
  beqList : List PyVal → List PyVal → Bool
    | [], [] => true
    | a :: as, b :: bs => PyVal.beq a b && beqList as bs
    | _, _ => false

instance : BEq PyVal := ⟨PyVal.beq⟩

/-- Python truthiness: `None`, `''`, `0`, `Decimal(0)`, `False` and `[]` are
falsy, everything else truthy. -/
def PyVal.truthy : PyVal → Bool
  | .none => false
  | .str s => s != ""
  | .int n => n != 0
  | .dec d => d.num != 0
  | .bool b => b
  | .list xs => !xs.isEmpty

/-- The Python exceptions raised by this module. -/
inductive PyExn where
  | keyError (msg : String)
  | valueError (msg : String)
  | attributeError (msg : String)
  | typeError (msg : String)
  | indexError
  | doesNotExist (model : String)
  | multipleObjectsReturned (msg : String)
  | invalidOperation
deriving DecidableEq, Repr

/-- A dataset row: a mapping from column name to raw cell value
(`data[column]` is association-list lookup, first match wins). -/
def Row := List (String × PyVal)

/-- Row lookup `data[key]`; `Option.none` models a `KeyError`. -/
def Row.lookup (r : Row) (k : String) : Option PyVal :=
  match r with
  | [] => Option.none
  | (k', v) :: rest => if k' = k then some v else Row.lookup rest k

/-- The way an attribute access can fail: a descriptor raising `ValueError`
or `ObjectDoesNotExist` (e.g. an unset relation on an unsaved object). -/
inductive AccessKind where
  | valueError
  | doesNotExist
deriving DecidableEq, Repr

/-- A Python object graph as seen by attribute traversal: scalar leaves,
objects with named attributes, zero-argument callables, `Manager`-like
relation accessors (callable but never invoked by `get_value`), and
`raiser` — a slot whose attribute access raises (unset relation). -/
inductive PyObj where
  | val (v : PyVal)
  | node (attrs : List (String × PyObj))
  | callableObj (ret : PyVal)
  | managerObj (elems : List PyVal)
  | raiser (k : AccessKind)
deriving Repr

/-- Association lookup among an object's attributes. -/
def attrsLookup (attrs : List (String × PyObj)) (name : String) : Option PyObj :=
  match attrs with
  | [] => Option.none
  | (k, v) :: rest => if k = name then some v else attrsLookup rest name

/-- Result of `getattr(obj, name, ...)` before applying any default. -/
inductive GetattrRes where
  | got (o : PyObj)
  | missing
  | raises (k : AccessKind)

/-- Raw attribute access: nodes expose their attributes (a `raiser` slot
raises on access); every other object has no importable attributes. -/
def PyObj.getattrRaw (o : PyObj) (name : String) : GetattrRes :=
  match o with
  | .node attrs =>
      match attrsLookup attrs name with
      | some (.raiser k) => .raises k
      | some x => .got x
      | Option.none => .missing
  | _ => .missing

/-- The widget capability (external, `widgets.Widget`): `clean` may raise a
`ValueError` on malformed input, `render` produces the export string from
whatever object `get_value` resolved. -/
structure Widget where
  clean : PyVal → Row → Except PyExn PyVal
  render : PyObj → String

/-- The identity widget: `widgets.Widget().clean` returns the raw value. -/
def Widget.identity : Widget where
  clean := fun v _ => .ok v
  render := fun v => match v with | .val (.str s) => s | _ => ""

/-- The `default` constructor argument: the `NOT_PROVIDED` sentinel, a plain
value, or a callable supplier (`callable(self.default)`). -/
inductive DefaultSpec where
  | notProvided
  | plain (v : PyVal)
  | deferred (f : Unit → PyVal)

/-- Whether `self.default != NOT_PROVIDED`. -/
def DefaultSpec.isProvided : DefaultSpec → Bool
  | .notProvided => false
  | _ => true

/-- Evaluation of the default: `self.default()` if callable else `self.default`. -/
def DefaultSpec.eval : DefaultSpec → PyVal
  | .notProvided => .none
  | .plain v => v
  | .deferred f => f ()

/-- The `Field` descriptor (`fields.Field.__init__`). -/
structure Field where
  «attribute» : Option String
  column_name : String
  widget : Widget
  default : DefaultSpec
  readonly : Bool
  saves_null_values : Bool

/-- Membership `value in self.empty_values` where `empty_values = [None, '']`
(Python `in` uses `==`; only `None` and the empty string compare equal). -/
def Field.isEmptyValue : PyVal → Bool
  | .none => true
  | .str s => s == ""
  | _ => false

/-- Model of `Field.clean(data)`: row lookup (`KeyError` when the column is absent,
listing available columns), widget clean, then the default when the cleaned
value is empty and a default is configured. -/
def Field.clean (f : Field) (data : Row) : Except PyExn PyVal :=
  match data.lookup f.column_name with
  | Option.none =>
      .error (.keyError ("Column " ++ f.column_name ++ " not found in dataset."))
  | some raw =>
      match f.widget.clean raw data with
      | .error e => .error e
      | .ok value =>
          if Field.isEmptyValue value && f.default.isProvided then
            .ok f.default.eval
          else
            .ok value

example :
    Field.clean
      { «attribute» := some "name", column_name := "name",
        widget := Widget.identity, default := .plain (.str "d"),
        readonly := false, saves_null_values := true }
      [("name", PyVal.str "")] = .ok (PyVal.str "d") := by rfl

/-- Executable model of Python `s.split('__')`: leftmost-first,
non-overlapping split on a double underscore; `''.split('__') == ['']`. -/
def splitOnDunderAux : List Char → List Char → List String
  | [], acc => [String.mk acc.reverse]
  | '_' :: '_' :: rest, acc => String.mk acc.reverse :: splitOnDunderAux rest []
  | c :: rest, acc => splitOnDunderAux rest (c :: acc)

/-- Model of `self.attribute.split('__')`. -/
def splitOnDunder (s : String) : List String := splitOnDunderAux s.data []

example : splitOnDunder "parent__id" = ["parent", "id"] := by rfl

example : splitOnDunder "id" = ["id"] := by rfl

/-- The attribute-path walk of `Field.get_value` (fields.py:120-133): each
step is `getattr(value, attr, None)` inside `try/except (ValueError,
ObjectDoesNotExist)`; a caught exception or a `None` value short-circuits to
`None`; after the walk a callable non-`Manager` value is invoked. -/
def getValueWalk : List String → PyObj → Option PyObj
  | [], value =>
      match value with
      | .callableObj ret => some (.val ret)
      | v => some v
  | attr :: rest, value =>
      match value.getattrRaw attr with
      | .got v =>
          match v with
          | .val .none => Option.none
          | v' => getValueWalk rest v'
      | .missing => Option.none
      | .raises _ => Option.none

/-- Model of `Field.get_value(obj)` (fields.py:110-134): `None` when no attribute is
configured, otherwise the `'__'`-split path walk. -/
def Field.get_value (f : Field) (obj : PyObj) : Option PyObj :=
  match f.«attribute» with
  | Option.none => Option.none
  | some a => getValueWalk (splitOnDunder a) obj

/-- Model of `Field.export(obj)` (fields.py:155-163): empty string when `get_value`
resolved `None`, otherwise the widget-rendered representation. -/
def Field.export (f : Field) (obj : PyObj) : String :=
  match Field.get_value f obj with
  | Option.none => ""
  | some v => f.widget.render v

/-- The Python `obj` local after `for attr in attrs[:-1]: obj = getattr(obj,
attr, None)` (fields.py:143-144): no `try` here, so a raising descriptor
propagates; a missing attribute makes the local `None` and the walk
continues on `None`. -/
def locateOwner : PyObj → List String → Except PyExn PyObj
  | cur, [] => .ok cur
  | cur, s :: rest =>
      match cur.getattrRaw s with
      | .got v => locateOwner v rest
      | .missing => locateOwner (.val .none) rest
      | .raises .valueError => .error (.valueError "attribute access raised")
      | .raises .doesNotExist => .error (.doesNotExist "related object")

/-- Replace-or-append on an attribute list (`setattr` creates the attribute
when absent). -/
def attrsSet (attrs : List (String × PyObj)) (name : String) (v : PyObj) :
    List (String × PyObj) :=
  match attrs with
  | [] => [(name, v)]
  | (k, w) :: rest =>
      if k = name then (k, v) :: rest else (k, w) :: attrsSet rest name v

mutual

/-- Functional image of the in-place `setattr` performed at the end of the
`attrs[:-1]` chain: rebuilds the root with the attribute at the given path
replaced.  Only reachable when every step of the chain resolved to a node,
so the fall-through cases return the object unchanged. -/
def setSlotAt : PyObj → List String → String → PyObj → PyObj
  | .node attrs, [], last, newv => .node (attrsSet attrs last newv)
  | .node attrs, s :: rest, last, newv => .node (setSlotAtList attrs s rest last newv)
  | o, _, _, _ => o

def setSlotAtList : List (String × PyObj) → String → List String → String →
    PyObj → List (String × PyObj)
  | [], _, _, _, _ => []
  | (k, v) :: tl, s, rest, last, newv =>
      if k = s then (k, setSlotAt v rest last newv) :: tl
      else (k, v) :: setSlotAtList tl s rest last newv

end

/-- Model of `iter(value)`: lists iterate their items, strings their characters;
everything else raises `TypeError`. -/
def pyIterate : PyVal → Option (List PyVal)
  | .list xs => some xs
  | .str s => some (s.data.map (fun c => PyVal.str c.toString))
  | _ => Option.none

/-- CPython semantics of `attrs[-1] is 'id'` (fields.py:145) — `is`, object
identity, not `==`.  `str.split` returns the original string object when the
separator does not occur in it, and freshly allocated substring objects
otherwise; the module-level literal `'id'` is interned, as are the
attribute-name literals of a resource configuration.  Hence the identity
test holds exactly when the configured attribute is itself the interned
string `"id"`; for any attribute containing `'__'` the final segment is a
fresh, non-interned object and the test is false even when that segment
spells `id`. -/
def lastSegIsIdObject (a : String) : Bool := a == "id"

/-- Model of `Field.save(obj, data, is_m2m)` (fields.py:136-153), returning the
updated object graph (Python mutates in place; the model's graphs are trees,
so path replacement is the same mutation).  Order follows the source: the
readonly guard, the `attrs[:-1]` walk, the `attrs[-1] is 'id'` identity
test, then `clean` and the null-write policy, then plain `setattr` or the
m2m `.set`. -/
def Field.save (f : Field) (obj : PyObj) (data : Row) (is_m2m : Bool) :
    Except PyExn PyObj :=
  if !f.readonly then
    match f.«attribute» with
    | Option.none => .error (.attributeError "NoneType object has no attribute split")
    | some a =>
        let attrs := splitOnDunder a
        let stem := attrs.dropLast
        let last := attrs.getLastD ""
        match locateOwner obj stem with
        | .error e => .error e
        | .ok cur =>
            if lastSegIsIdObject a then .ok obj
            else
              match Field.clean f data with
              | .error e => .error e
              | .ok cleaned =>
                  if cleaned != PyVal.none || f.saves_null_values then
                    if !is_m2m then
                      match cur with
                      | .node _ => .ok (setSlotAt obj stem last (.val cleaned))
                      | _ => .error (.attributeError "setattr on non-object")
                    else
                      match cur.getattrRaw last with
                      | .got (.managerObj _) =>
                          match pyIterate cleaned with
                          | some xs => .ok (setSlotAt obj stem last (.managerObj xs))
                          | Option.none => .error (.typeError "object is not iterable")
                      | .got _ => .error (.attributeError "object has no attribute set")
                      | .missing => .error (.attributeError "missing attribute")
                      | .raises .valueError => .error (.valueError "attribute access raised")
                      | .raises .doesNotExist => .error (.doesNotExist "related object")
                  else .ok obj
  else .ok obj

/-- C7 — `Field.clean` returns the configured default exactly when the
widget-cleaned value is empty (`None` or `''`) and a default is configured
(a callable default is invoked, via `DefaultSpec.eval`), and the
widget-cleaned value itself in every other case. -/
theorem clean_returns_default_iff_empty (f : Field) (data : Row) (raw v : PyVal)
    (hcol : data.lookup f.column_name = some raw)
    (hw : f.widget.clean raw data = .ok v) :
    Field.clean f data =
      .ok (if Field.isEmptyValue v && f.default.isProvided then f.default.eval else v) := by
  simp only [Field.clean, hcol, hw]
  split <;> rfl

/-- Witness for C7: a field with default `"d"` on an empty cell cleans to
`"d"`; with a non-empty cell it cleans to the cell value. -/
theorem clean_returns_default_iff_empty_witness :
    Field.clean
      { «attribute» := some "name", column_name := "name",
        widget := Widget.identity, default := .plain (.str "d"),
        readonly := false, saves_null_values := true }
      [("name", PyVal.str "")] = .ok (PyVal.str "d") := by
  have h := clean_returns_default_iff_empty
    { «attribute» := some "name", column_name := "name",
      widget := Widget.identity, default := .plain (.str "d"),
      readonly := false, saves_null_values := true }
    [("name", PyVal.str "")] (.str "") (.str "") rfl rfl
  simpa using h

/-- C6 — `Field.export` is a total function of the object (the
unset-relation and missing-attribute failures are absorbed inside
`get_value`), and whenever `get_value` resolves to `None` — no attribute
configured, a missing or unset attribute path — the export is the empty
string rather than an exception. -/
theorem export_empty_when_no_value (f : Field) (obj : PyObj)
    (h : Field.get_value f obj = Option.none) : Field.export f obj = "" := by
  simp only [Field.export, h]

/-- Witness for C6: an object whose `a` attribute raises
`ObjectDoesNotExist` on access exports as the empty string. -/
theorem export_empty_when_no_value_witness :
    Field.export
      { «attribute» := some "a__b", column_name := "a",
        widget := Widget.identity, default := .notProvided,
        readonly := false, saves_null_values := true }
      (.node [("a", .raiser .doesNotExist)]) = "" := by
  exact export_empty_when_no_value
    { «attribute» := some "a__b", column_name := "a",
      widget := Widget.identity, default := .notProvided,
      readonly := false, saves_null_values := true }
    (.node [("a", .raiser .doesNotExist)]) (by rfl)

/-- C2 is a code bug — the claim (from the spec: when the final path
segment is the identifier attribute `id`, the write is silently skipped and
the identifier never overwritten) fails on the code: fields.py:145 compares
with `is`, object identity, so for a compound attribute such as
`parent__id` the fresh substring `'id'` produced by `split` is not the
interned literal and the guard does not fire.  Evaluated at that failing
input, `Field.save` cleans the row value `7` and overwrites `parent.id`,
which the claim requires to stay `5`. -/
theorem save_overwrites_nested_id :
    Field.save
      { «attribute» := some "parent__id", column_name := "parent_id",
        widget := Widget.identity, default := .notProvided,
        readonly := false, saves_null_values := true }
      (.node [("parent", .node [("id", .val (.int 5))])])
      [("parent_id", PyVal.int 7)] false
      = .ok (.node [("parent", .node [("id", .val (.int 7))])]) := by
  rfl

/-- Python `pat in s` substring test. -/
def hasInfixAux (pat : List Char) : List Char → Bool
  | [] => pat.isEmpty
  | c :: rest => if pat.isPrefixOf (c :: rest) then true else hasInfixAux pat rest

/-- Substring test `'price_lvl' in self.attribute` and friends. -/
def pyInStr (pat s : String) : Bool := hasInfixAux pat.data s.data

/-- Python negative indexing `xs[-k]` (`k ≥ 1`); `Option.none` models the
`IndexError` when the list is shorter than `k`. -/
def pyNegIdx (xs : List α) (k : Nat) : Option α := xs.reverse.get? (k - 1)

/-- Python `s.partition(ch)[-1]`: the part after the first occurrence of `ch`,
empty when `ch` does not occur. -/
def afterFirstChar (ch : Char) : List Char → List Char
  | [] => []
  | c :: rest => if c = ch then rest else afterFirstChar ch rest

/-- Python `s.rpartition(ch)[0]`: the part before the last occurrence of `ch`,
empty when `ch` does not occur. -/
def beforeLastChar (ch : Char) (cs : List Char) : List Char :=
  (afterFirstChar ch cs.reverse).reverse

/-- The paren extraction `tmp.partition('(')[-1].rpartition(')')[0]` (fields.py:260):
the text between the first `(` and the last `)`. -/
def parenInner (s : String) : String :=
  String.mk (beforeLastChar ')' (afterFirstChar '(' s.data))

example : parenInner "(3)" = "3" := by rfl

/-- Decimal digit-string value. -/
def natFoldDigits (cs : List Char) : Nat :=
  cs.foldl (fun n c => n * 10 + (c.toNat - 48)) 0

/-- Python `int(s)` on a digit string with optional sign; `Option.none`
models the `ValueError` on anything else (in particular `int('')`). -/
def pyIntOfString (s : String) : Option Int :=
  let core : List Char → Option Int := fun cs =>
    if cs.isEmpty || !cs.all Char.isDigit then Option.none
    else some (natFoldDigits cs : Int)
  match s.data with
  | '-' :: rest => (core rest).map (fun n => -n)
  | '+' :: rest => core rest
  | cs => core cs

/-- Model of `Decimal(s)` on a plain decimal literal `[sign] digits [. digits]`
(exponent forms are outside the inputs this module receives);
`Option.none` models the `InvalidOperation` on anything else. -/
def parseDecimal (s : String) : Option Dec :=
  let core : List Char → Option Dec := fun cs =>
    let ip := cs.takeWhile (· ≠ '.')
    match cs.dropWhile (· ≠ '.') with
    | [] =>
        if ip.isEmpty || !ip.all Char.isDigit then Option.none
        else some ⟨(natFoldDigits ip : Int), 1⟩
    | _ :: frac =>
        if (ip.isEmpty && frac.isEmpty) || !ip.all Char.isDigit || !frac.all Char.isDigit
        then Option.none
        else some ⟨(natFoldDigits ip * 10 ^ frac.length + natFoldDigits frac : Int),
          10 ^ frac.length⟩
  match s.data with
  | '-' :: rest => (core rest).map (fun d => ⟨-d.num, d.den⟩)
  | '+' :: rest => core rest
  | cs => core cs

example : parseDecimal "19.99" = some ⟨1999, 100⟩ := by decide

/-- Model of `Decimal(value)` on a cleaned cell value: strings are parsed, ints,
`Decimal`s and booleans convert exactly; `None` and lists raise. -/
def pyDecimalOfVal : PyVal → Option Dec
  | .str s => parseDecimal s
  | .int n => some ⟨n, 1⟩
  | .dec d => some d
  | .bool b => some ⟨if b then 1 else 0, 1⟩
  | _ => Option.none

/-- Rounding of `a / b` to an integer, half to even — the default `decimal`
context rounding used by `round(Decimal, n)` (`b > 0` in every use). -/
def halfEvenQuot (a : Int) (b : Nat) : Int :=
  let q := Int.fdiv a b
  let r := a - q * b
  if 2 * r < (b : Int) then q
  else if (b : Int) < 2 * r then q + 1
  else if q % 2 == 0 then q else q + 1

/-- Model of `round(Decimal(value), 5)` (fields.py:272): half-even rounding to 5
fractional digits. -/
def round5 (d : Dec) : Dec := ⟨halfEvenQuot (d.num * 100000) d.den, 100000⟩

/-- Python truthiness of `obj.id` (`None` and `0` are falsy). -/
def idTruthy : Option Int → Bool
  | Option.none => false
  | some n => n != 0

/-- A persisted domain object as the price fields see it: its identifier and
its content type (`ContentType.objects.get_for_model(obj)`). -/
structure SObj where
  id : Option Int
  ctypeId : Int
deriving DecidableEq, Repr

/-- The external pricing tables the `get(...)` calls hit: existing currency
codes, tax-ratio percentages and price-level pks, and the identifier that
`obj.save()` would assign to an unsaved object. -/
structure PricingEnv where
  currencies : List String
  taxRatios : List Dec
  priceLevels : List Int
  freshId : Int

/-- One `Price` fact (spec §3: keyed by object, currency, tax ratio and
optional price level, with the amount as payload). -/
structure PriceFact where
  content_type_id : Int
  object_id : Option Int
  currency : String
  tax_ratio : Dec
  price_level : Option Int
  price_excluding_tax : Dec
deriving DecidableEq, Repr

/-- Whether a stored fact matches the `update_or_create` key. -/
def priceKeyMatches (ct : Int) (oid : Option Int) (cur : String) (tax : Dec)
    (lvl : Option Int) (p : PriceFact) : Bool :=
  p.content_type_id == ct && p.object_id == oid && p.currency == cur &&
    p.tax_ratio == tax && p.price_level == lvl

/-- Model of `Price.not_nullable.update_or_create(...)` (fields.py:277-284): update
the unique fact with the given key, or create it; an ambiguous key (more
than one existing fact) raises `MultipleObjectsReturned` as Django's
`get_or_create` machinery does. -/
def updateOrCreatePrice (store : List PriceFact) (ct : Int) (oid : Option Int)
    (cur : String) (tax : Dec) (lvl : Option Int) (amount : Dec) :
    Except PyExn (List PriceFact) :=
  match store.filter (priceKeyMatches ct oid cur tax lvl) with
  | [] => .ok (store ++ [⟨ct, oid, cur, tax, lvl, amount⟩])
  | [_] => .ok (store.map (fun p =>
      if priceKeyMatches ct oid cur tax lvl p then
        { p with price_excluding_tax := amount } else p))
  | _ => .error (.multipleObjectsReturned "get() returned more than one Price")

/-- The column-name-convention key parse at the top of `PriceField.save`
(fields.py:254-264): trailing token = currency; with a `price_lvl` marker
the token four-from-end carries the parenthesized price-level id and the
token five-from-end the tax ratio, otherwise the token next-to-last is the
tax ratio.  Failures are the `IndexError` of the negative indexing and the
`ValueError` of `int('')`. -/
def parsePriceKey (a : String) : Except PyExn (String × String × Option Int) :=
  let tmp := splitOnDunder a
  if pyInStr "price_lvl" a then
    match pyNegIdx tmp 1, pyNegIdx tmp 4, pyNegIdx tmp 5 with
    | some cur, some t4, some t5 =>
        match pyIntOfString (parenInner t4) with
        | some lvl => .ok (cur, t5, some lvl)
        | Option.none => .error (.valueError "invalid literal for int()")
    | _, _, _ => .error .indexError
  else
    match pyNegIdx tmp 1, pyNegIdx tmp 2 with
    | some cur, some t2 => .ok (cur, t2, Option.none)
    | _, _ => .error .indexError

/-- Model of `if not obj.id: obj.save()` (fields.py:275-276): persisting assigns the
store's next identifier. -/
def persistIfUnsaved (env : PricingEnv) (obj : SObj) : SObj :=
  if !idTruthy obj.id then { obj with id := some env.freshId } else obj

/-- Model of `PriceField.save(obj, data)` (fields.py:253-284).  Order follows the
source: key parse, `Decimal` conversion of the tax ratio, `clean`, the
`value is '' or value is None` no-op, half-even rounding to 5 digits,
persisting an unsaved object, then the keyed upsert (with the `Currency`,
`TaxRatio` and `PriceLevel` `get(...)` lookups in argument order).
`readonly` is never consulted. -/
def PriceField.save (f : Field) (env : PricingEnv) (obj : SObj) (data : Row)
    (store : List PriceFact) : Except PyExn (SObj × List PriceFact) :=
  match f.«attribute» with
  | Option.none => .error (.attributeError "NoneType object has no attribute split")
  | some a =>
      match parsePriceKey a with
      | .error e => .error e
      | .ok (cur, taxStr, lvl) =>
          match parseDecimal taxStr with
          | Option.none => .error .invalidOperation
          | some tax =>
              match Field.clean f data with
              | .error e => .error e
              | .ok value =>
                  if value == PyVal.str "" || value == PyVal.none then .ok (obj, store)
                  else
                    match pyDecimalOfVal value with
                    | Option.none => .error .invalidOperation
                    | some q =>
                        let rounded := round5 q
                        let obj := persistIfUnsaved env obj
                        if !(env.currencies.contains cur) then
                          .error (.doesNotExist "Currency")
                        else if !(env.taxRatios.contains tax) then
                          .error (.doesNotExist "TaxRatio")
                        else
                          match lvl with
                          | some l =>
                              if !(env.priceLevels.contains l) then
                                .error (.doesNotExist "PriceLevel")
                              else
                                (updateOrCreatePrice store obj.ctypeId obj.id cur tax
                                  (some l) rounded).map (fun st => (obj, st))
                          | Option.none =>
                              (updateOrCreatePrice store obj.ctypeId obj.id cur tax
                                Option.none rounded).map (fun st => (obj, st))

/-- One `OldPrice` fact: like `PriceFact` but with no price-level
dimension (fields.py:317-323). -/
structure OldPriceFact where
  content_type_id : Int
  object_id : Option Int
  currency : String
  tax_ratio : Dec
  price_excluding_tax : Dec
deriving DecidableEq, Repr

/-- Whether a stored historical fact matches the `update_or_create` key. -/
def oldPriceKeyMatches (ct : Int) (oid : Option Int) (cur : String) (tax : Dec)
    (p : OldPriceFact) : Bool :=
  p.content_type_id == ct && p.object_id == oid && p.currency == cur &&
    p.tax_ratio == tax

/-- Model of `OldPrice.objects.update_or_create(...)`. -/
def updateOrCreateOldPrice (store : List OldPriceFact) (ct : Int)
    (oid : Option Int) (cur : String) (tax : Dec) (amount : Dec) :
    Except PyExn (List OldPriceFact) :=
  match store.filter (oldPriceKeyMatches ct oid cur tax) with
  | [] => .ok (store ++ [⟨ct, oid, cur, tax, amount⟩])
  | [_] => .ok (store.map (fun p =>
      if oldPriceKeyMatches ct oid cur tax p then
        { p with price_excluding_tax := amount } else p))
  | _ => .error (.multipleObjectsReturned "get() returned more than one OldPrice")

/-- The key parse of `OldPriceField.save` (fields.py:304-306): trailing
token = currency; tax ratio five-from-end with a `price_lvl` marker, else
next-to-last. -/
def parseOldPriceKey (a : String) : Except PyExn (String × String) :=
  let tmp := splitOnDunder a
  match pyNegIdx tmp 1, pyNegIdx tmp (if pyInStr "price_lvl" a then 5 else 2) with
  | some cur, some t => .ok (cur, t)
  | _, _ => .error .indexError

/-- Model of `OldPriceField.save(obj, data)` (fields.py:303-323): same shape as
`PriceField.save` but with full-precision amount (no rounding), no
auto-persist of the object (`object_id=obj.id` as-is) and no price-level
dimension.  `readonly` is never consulted. -/
def OldPriceField.save (f : Field) (env : PricingEnv) (obj : SObj) (data : Row)
    (store : List OldPriceFact) : Except PyExn (List OldPriceFact) :=
  match f.«attribute» with
  | Option.none => .error (.attributeError "NoneType object has no attribute split")
  | some a =>
      match parseOldPriceKey a with
      | .error e => .error e
      | .ok (cur, taxStr) =>
          match parseDecimal taxStr with
          | Option.none => .error .invalidOperation
          | some tax =>
              match Field.clean f data with
              | .error e => .error e
              | .ok value =>
                  if value == PyVal.str "" || value == PyVal.none then .ok store
                  else
                    match pyDecimalOfVal value with
                    | Option.none => .error .invalidOperation
                    | some q =>
                        if !(env.currencies.contains cur) then
                          .error (.doesNotExist "Currency")
                        else if !(env.taxRatios.contains tax) then
                          .error (.doesNotExist "TaxRatio")
                        else
                          updateOrCreateOldPrice store obj.ctypeId obj.id cur tax q

/-- One attached carousel image
(`CarouselImages(content_type_id, object_id, image)`, fields.py:334-338). -/
structure CarouselImage where
  content_type_id : Int
  object_id : Option Int
  image : PyVal
deriving Repr

/-- An object carrying the generic `carousel_images` relation. -/
structure CObj where
  id : Option Int
  ctypeId : Int
  carousel_images : List CarouselImage
deriving Repr

/-- Model of `CarouselImageField.save(obj, data)` (fields.py:328-339), returning the
final object together with the exception, if any, since the
`carousel_images.clear()` mutation survives a later failure: `clean`, then
`clear`, then one `add` per item of the cleaned value (iterating a
non-iterable value raises `TypeError` after the clear has happened).
`readonly` is never consulted. -/
def CarouselImageField.save (f : Field) (obj : CObj) (data : Row) :
    CObj × Option PyExn :=
  match Field.clean f data with
  | .error e => (obj, some e)
  | .ok values =>
      let obj := { obj with carousel_images := [] }
      match pyIterate values with
      | Option.none => (obj, some (.typeError "object is not iterable"))
      | some imgs =>
          ({ obj with carousel_images :=
              imgs.map (fun im => ⟨obj.ctypeId, obj.id, im⟩) }, Option.none)

lemma dec_beq_refl (d : Dec) : (d == d) = true := by
  simp [BEq.beq, Dec.eqv]

/-- The `value is '' or value is None` test of the price fields coincides
with membership in `empty_values` (the empty string is a CPython
singleton, so identity and equality agree there). -/
lemma emptyCheck_eq (v : PyVal) :
    (v == PyVal.str "" || v == PyVal.none) = Field.isEmptyValue v := by
  cases v <;> simp [Field.isEmptyValue, BEq.beq, PyVal.beq]

lemma filter_map_upd {α} (key : α → Bool) (upd : α → α)
    (hk : ∀ x, key (upd x) = key x) (l : List α) :
    (l.map (fun x => if key x then upd x else x)).filter key
      = (l.filter key).map upd := by
  induction l with
  | nil => rfl
  | cons a tl ih =>
      cases h : key a with
      | true => simp [h, hk, ih]
      | false => simp [h, hk, ih]

lemma filter_not_map_upd {α} (key : α → Bool) (upd : α → α)
    (hk : ∀ x, key (upd x) = key x) (l : List α) :
    (l.map (fun x => if key x then upd x else x)).filter (fun x => !key x)
      = l.filter (fun x => !key x) := by
  induction l with
  | nil => rfl
  | cons a tl ih =>
      cases h : key a with
      | true => simp [h, hk, ih]
      | false => simp [h, hk, ih]

lemma priceKeyMatches_self (ct : Int) (oid : Option Int) (cur : String)
    (tax : Dec) (lvl : Option Int) (amount : Dec) :
    priceKeyMatches ct oid cur tax lvl ⟨ct, oid, cur, tax, lvl, amount⟩ = true := by
  simp [priceKeyMatches, dec_beq_refl]

lemma priceKeyMatches_upd (ct : Int) (oid : Option Int) (cur : String)
    (tax : Dec) (lvl : Option Int) (amount : Dec) (p : PriceFact) :
    priceKeyMatches ct oid cur tax lvl { p with price_excluding_tax := amount }
      = priceKeyMatches ct oid cur tax lvl p := by
  simp [priceKeyMatches]

/-- Observable behaviour of the price upsert when the store satisfies the
one-fact-per-key invariant: afterwards exactly one fact carries the key,
its amount is the payload, and every other fact is untouched. -/
lemma updateOrCreatePrice_spec (store : List PriceFact) (ct : Int)
    (oid : Option Int) (cur : String) (tax : Dec) (lvl : Option Int)
    (amount : Dec)
    (hlen : (store.filter (priceKeyMatches ct oid cur tax lvl)).length ≤ 1) :
    ∃ store', updateOrCreatePrice store ct oid cur tax lvl amount = .ok store'
      ∧ (store'.filter (priceKeyMatches ct oid cur tax lvl)).map
          PriceFact.price_excluding_tax = [amount]
      ∧ store'.filter (fun p => !priceKeyMatches ct oid cur tax lvl p)
          = store.filter (fun p => !priceKeyMatches ct oid cur tax lvl p) := by
  unfold updateOrCreatePrice
  match hf : store.filter (priceKeyMatches ct oid cur tax lvl) with
  | [] =>
      refine ⟨store ++ [⟨ct, oid, cur, tax, lvl, amount⟩], rfl, ?_, ?_⟩
      · simp [List.filter_append, hf, priceKeyMatches_self]
      · simp [List.filter_append, priceKeyMatches_self]
  | [p] =>
      refine ⟨_, rfl, ?_, ?_⟩
      · rw [filter_map_upd _ _ (priceKeyMatches_upd ct oid cur tax lvl amount), hf]
        rfl
      · exact filter_not_map_upd _ _ (priceKeyMatches_upd ct oid cur tax lvl amount) store
  | p :: q :: rest => simp [hf] at hlen

/-- C4 — `PriceField.save`: with a parsable attribute key and a
successfully cleaned cell, an empty cleaned value (`None` or `''`) is a
no-op leaving the object and every existing price fact unchanged; a
non-empty value is rounded half-even to 5 fractional digits, the object is
persisted first when it has no identifier, and the store afterwards holds
exactly one fact for the key (object, currency, tax ratio, price level
parsed from the column-name convention) with that amount, all other facts
untouched. -/
theorem price_save_noop_or_upsert
    (f : Field) (env : PricingEnv) (obj : SObj) (data : Row)
    (store : List PriceFact) (a cur taxStr : String)
    (lvl : Option Int) (tax : Dec) (v : PyVal)
    (ha : f.«attribute» = some a)
    (hk : parsePriceKey a = .ok (cur, taxStr, lvl))
    (ht : parseDecimal taxStr = some tax)
    (hv : Field.clean f data = .ok v) :
    (Field.isEmptyValue v = true →
      PriceField.save f env obj data store = .ok (obj, store))
    ∧ (∀ q, Field.isEmptyValue v = false → pyDecimalOfVal v = some q →
        env.currencies.contains cur = true →
        env.taxRatios.contains tax = true →
        (∀ l, lvl = some l → env.priceLevels.contains l = true) →
        (store.filter (priceKeyMatches (persistIfUnsaved env obj).ctypeId
            (persistIfUnsaved env obj).id cur tax lvl)).length ≤ 1 →
        ∃ store',
          PriceField.save f env obj data store
              = .ok (persistIfUnsaved env obj, store')
          ∧ (store'.filter (priceKeyMatches (persistIfUnsaved env obj).ctypeId
                (persistIfUnsaved env obj).id cur tax lvl)).map
                PriceFact.price_excluding_tax = [round5 q]
          ∧ store'.filter (fun p => !priceKeyMatches (persistIfUnsaved env obj).ctypeId
                (persistIfUnsaved env obj).id cur tax lvl p)
              = store.filter (fun p => !priceKeyMatches (persistIfUnsaved env obj).ctypeId
                (persistIfUnsaved env obj).id cur tax lvl p)) := by
  constructor
  · intro he
    have hc : (v == PyVal.str "" || v == PyVal.none) = true := by
      rw [emptyCheck_eq]; exact he
    simp only [PriceField.save, ha, hk, ht, hv, hc, if_true]
  · intro q hne hq hcur htax hl hlen
    have hc : (v == PyVal.str "" || v == PyVal.none) = false := by
      rw [emptyCheck_eq]; exact hne
    obtain ⟨store', hst, hone, hrest⟩ :=
      updateOrCreatePrice_spec store (persistIfUnsaved env obj).ctypeId
        (persistIfUnsaved env obj).id cur tax lvl (round5 q) hlen
    have hcur' : cur ∈ env.currencies := by simpa using hcur
    refine ⟨store', ?_, hone, hrest⟩
    cases lvl with
    | none =>
        simp [PriceField.save, ha, hk, ht, hv, hc, hq, hcur', htax, hst,
          Except.map]
    | some l =>
        have hl' : l ∈ env.priceLevels := by simpa using hl l rfl
        simp [PriceField.save, ha, hk, ht, hv, hc, hq, hcur', htax, hl', hst,
          Except.map]

/-- Witness for C4: importing `19.99` into `price__10__USD` on an unsaved
object over an empty store persists the object and creates the single fact
`(USD, 10, no level)` valued `19.99000`. -/
theorem price_save_noop_or_upsert_witness :
    ∃ store',
      PriceField.save
          { «attribute» := some "price__10__USD", column_name := "price__10__USD",
            widget := Widget.identity, default := .notProvided,
            readonly := false, saves_null_values := true }
          ⟨["USD"], [⟨10, 1⟩], [], 7⟩ ⟨Option.none, 3⟩
          [("price__10__USD", PyVal.str "19.99")] []
          = .ok (persistIfUnsaved ⟨["USD"], [⟨10, 1⟩], [], 7⟩ ⟨Option.none, 3⟩, store')
      ∧ (store'.filter (priceKeyMatches
            (persistIfUnsaved ⟨["USD"], [⟨10, 1⟩], [], 7⟩ ⟨Option.none, 3⟩).ctypeId
            (persistIfUnsaved ⟨["USD"], [⟨10, 1⟩], [], 7⟩ ⟨Option.none, 3⟩).id
            "USD" ⟨10, 1⟩ Option.none)).map PriceFact.price_excluding_tax
          = [round5 ⟨1999, 100⟩]
      ∧ store'.filter (fun p => !priceKeyMatches
            (persistIfUnsaved ⟨["USD"], [⟨10, 1⟩], [], 7⟩ ⟨Option.none, 3⟩).ctypeId
            (persistIfUnsaved ⟨["USD"], [⟨10, 1⟩], [], 7⟩ ⟨Option.none, 3⟩).id
            "USD" ⟨10, 1⟩ Option.none p)
          = List.filter (fun p => !priceKeyMatches
            (persistIfUnsaved ⟨["USD"], [⟨10, 1⟩], [], 7⟩ ⟨Option.none, 3⟩).ctypeId
            (persistIfUnsaved ⟨["USD"], [⟨10, 1⟩], [], 7⟩ ⟨Option.none, 3⟩).id
            "USD" ⟨10, 1⟩ Option.none p) [] := by
  exact (price_save_noop_or_upsert
    { «attribute» := some "price__10__USD", column_name := "price__10__USD",
      widget := Widget.identity, default := .notProvided,
      readonly := false, saves_null_values := true }
    ⟨["USD"], [⟨10, 1⟩], [], 7⟩ ⟨Option.none, 3⟩
    [("price__10__USD", PyVal.str "19.99")] []
    "price__10__USD" "USD" "10" Option.none ⟨10, 1⟩ (.str "19.99")
    rfl rfl rfl rfl).2
    ⟨1999, 100⟩ rfl (by decide) (by decide) (by decide)
    (fun l h => by cases h) (by decide)

/-- C5 — `CarouselImageField.save` replaces the full attached-image
collection (clear, then one attachment per item of the cleaned list), so a
second save of the same row leaves exactly `n` images, not `2n`. -/
theorem carousel_save_replaces_collection
    (f : Field) (obj : CObj) (data : Row) (imgs : List PyVal)
    (h : Field.clean f data = .ok (PyVal.list imgs)) :
    (CarouselImageField.save f obj data).1.carousel_images.length = imgs.length
    ∧ (CarouselImageField.save f
        (CarouselImageField.save f obj data).1 data).1.carousel_images.length
        = imgs.length
    ∧ (CarouselImageField.save f
        (CarouselImageField.save f obj data).1 data).2 = Option.none := by
  refine ⟨?_, ?_, ?_⟩ <;> simp [CarouselImageField.save, h, pyIterate]

/-- Witness for C5: two sequential imports of a 3-image row leave exactly 3
attached images. -/
theorem carousel_save_replaces_collection_witness :
    (CarouselImageField.save
      { «attribute» := some "carousel_images", column_name := "images",
        widget := Widget.identity, default := .notProvided,
        readonly := false, saves_null_values := true }
      (CarouselImageField.save
        { «attribute» := some "carousel_images", column_name := "images",
          widget := Widget.identity, default := .notProvided,
          readonly := false, saves_null_values := true }
        ⟨some 1, 2, []⟩
        [("images", PyVal.list [.str "a", .str "b", .str "c"])]).1
      [("images", PyVal.list [.str "a", .str "b", .str "c"])]).1.carousel_images.length
    = 3 := by
  exact (carousel_save_replaces_collection
    { «attribute» := some "carousel_images", column_name := "images",
      widget := Widget.identity, default := .notProvided,
      readonly := false, saves_null_values := true }
    ⟨some 1, 2, []⟩
    [("images", PyVal.list [.str "a", .str "b", .str "c"])]
    [.str "a", .str "b", .str "c"] rfl).2.1

/-- C10 — the `carousel_images.clear()` happens after `clean` but before
the cleaned value is iterated: when the cleaned value is `None` or not a
collection, the iteration's `TypeError` is raised on an object whose
collection has already been emptied (the clear is not rolled back), and an
empty cleaned collection leaves the collection empty. -/
theorem carousel_clear_precedes_iteration
    (f : Field) (obj : CObj) (data : Row) (v : PyVal)
    (h : Field.clean f data = .ok v) :
    (pyIterate v = Option.none →
      CarouselImageField.save f obj data
        = ({ obj with carousel_images := [] },
            some (.typeError "object is not iterable")))
    ∧ (v = PyVal.list [] →
      CarouselImageField.save f obj data
        = ({ obj with carousel_images := [] }, Option.none)) := by
  constructor
  · intro hit
    simp [CarouselImageField.save, h, hit]
  · intro hl
    subst hl
    simp [CarouselImageField.save, h, pyIterate]

/-- Witness for C10: a row whose cell cleans to `None` leaves the object
with an emptied collection and raises `TypeError`. -/
theorem carousel_clear_precedes_iteration_witness :
    CarouselImageField.save
      { «attribute» := some "carousel_images", column_name := "images",
        widget := Widget.identity, default := .notProvided,
        readonly := false, saves_null_values := true }
      ⟨some 1, 2, [⟨2, some 1, .str "old"⟩]⟩ [("images", PyVal.none)]
      = (⟨some 1, 2, []⟩, some (.typeError "object is not iterable")) := by
  exact (carousel_clear_precedes_iteration
    { «attribute» := some "carousel_images", column_name := "images",
      widget := Widget.identity, default := .notProvided,
      readonly := false, saves_null_values := true }
    ⟨some 1, 2, [⟨2, some 1, .str "old"⟩]⟩ [("images", PyVal.none)]
    PyVal.none rfl).1 rfl

/-- C9 — `PriceField.save`, `OldPriceField.save` and
`CarouselImageField.save` never consult the `readonly` flag (their
behaviour is invariant under changing it, so a `readonly=True` field still
performs its write), unlike the base `Field.save`, which is a no-op when
`readonly` is set. -/
theorem specialized_saves_ignore_readonly :
    (∀ (f : Field) (b : Bool) (env : PricingEnv) (obj : SObj) (data : Row)
        (store : List PriceFact),
      PriceField.save { f with readonly := b } env obj data store
        = PriceField.save f env obj data store)
    ∧ (∀ (f : Field) (b : Bool) (env : PricingEnv) (obj : SObj) (data : Row)
        (store : List OldPriceFact),
      OldPriceField.save { f with readonly := b } env obj data store
        = OldPriceField.save f env obj data store)
    ∧ (∀ (f : Field) (b : Bool) (obj : CObj) (data : Row),
      CarouselImageField.save { f with readonly := b } obj data
        = CarouselImageField.save f obj data)
    ∧ (∀ (f : Field) (obj : PyObj) (data : Row) (m : Bool),
      Field.save { f with readonly := true } obj data m = .ok obj) := by
  exact ⟨fun f b env obj data store => rfl, fun f b env obj data store => rfl,
    fun f b obj data => rfl, fun f obj data m => rfl⟩

/-- String interpolation `'{}'.format(value)` on a cleaned cell value, as interpolated into
error messages. -/
def pyStrOf : PyVal → String
  | .none => "None"
  | .str s => s
  | .int n => toString n
  | .dec d => toString d.num ++ "E-" ++ toString d.den
  | .bool b => if b then "True" else "False"
  | .list _ => "[...]"

/-- The tree-structured persistence capability `ParentField.save` consumes
(spec §6: `add_root`/`add_child`/`move`/`fix_tree`, the translated-slug
query, and the per-object facts it reads).  `π` is the type of resolved
parent objects, `σ` the external store state.  `translatedFirst` models
`Product.objects.translated(slug=value).first()` under an activated
language: it returns `Except` so that an infrastructure failure of the
query itself can raise, but an unmatched slug yields `.ok Option.none` —
`QuerySet.first()` returns `None` rather than raising. -/
structure TreeCtx (π : Type) (σ : Type) where
  isParent : Bool
  objId : Option Int
  objName : String
  translatedFirst : String → PyVal → Except PyExn (Option π)
  childrenContain : π → Bool
  objParent : Option π
  addRoot : σ → σ
  addChild : π → σ → σ
  move : Option π → σ → Except PyExn σ
  refetch : σ → Except PyExn σ
  fixTree : σ → σ

/-- The `except AttributeError` arm of the move (fields.py:439-442):
`Product.fix_tree()`, then the slug query again, then the move again —
whatever this arm produces is surfaced, there is no further handler. -/
def parentMoveExceptArm {π σ : Type} (ctx : TreeCtx π σ) (lang : String)
    (value : PyVal) (st : σ) : Except PyExn σ :=
  let st' := ctx.fixTree st
  match ctx.translatedFirst lang value with
  | .error e => .error e
  | .ok tgt => ctx.move tgt st'

/-- Model of `ParentField.save(obj, data)` (fields.py:407-444).  Root-type objects
and empty cleaned values attach an identifierless object as a tree root and
otherwise no-op.  Otherwise only the first configured language is ever
tried (the loop returns unconditionally at its end).  The
`try/except Exception` around the slug query (fields.py:426-429) would
raise `ValueError('ERROR: in product: "{name}" - Parent slug: "{slug}"
DOES NOT EXIST')`, but it is reachable only when the query itself raises:
an unmatched slug makes `first()` return `None`, after which
`parent_obj.get_children()` raises `AttributeError` outside any handler.
If the object is already a child of the resolved parent nothing happens;
with no current parent it is attached as a child (after clearing the
transient id); with a different parent it is moved, and an
`AttributeError` from the move/refetch triggers the single
repair-and-retry arm. -/
def ParentField.save {π σ : Type} (f : Field) (ctx : TreeCtx π σ)
    (langs : List String) (data : Row) (s : σ) : Except PyExn σ :=
  if !f.readonly then
    match Field.clean f data with
    | .error e => .error e
    | .ok value =>
        if ctx.isParent || value == PyVal.str "" || value == PyVal.none then
          match ctx.objId with
          | Option.none => .ok (ctx.addRoot s)
          | some _ => .ok s
        else
          match langs with
          | [] => .ok s
          | lang :: _ =>
              match ctx.translatedFirst lang value with
              | .error _ =>
                  .error (.valueError ("ERROR: in product: " ++ ctx.objName ++
                    " - Parent slug: " ++ pyStrOf value ++ " DOES NOT EXIST"))
              | .ok Option.none =>
                  .error (.attributeError
                    "NoneType object has no attribute get_children")
              | .ok (some parent) =>
                  if !ctx.childrenContain parent then
                    match ctx.objParent with
                    | Option.none => .ok (ctx.addChild parent s)
                    | some _ =>
                        match ctx.translatedFirst lang value with
                        | .error (.attributeError _) =>
                            parentMoveExceptArm ctx lang value s
                        | .error e => .error e
                        | .ok tgt =>
                            match ctx.move tgt s with
                            | .error (.attributeError _) =>
                                parentMoveExceptArm ctx lang value s
                            | .error e => .error e
                            | .ok s' =>
                                match ctx.refetch s' with
                                | .error (.attributeError _) =>
                                    parentMoveExceptArm ctx lang value s'
                                | .error e => .error e
                                | .ok s'' => .ok s''
                  else .ok s
  else .ok s

/-- C1 is a code bug — the claim (from the spec: a non-empty parent
slug that no object carries in the tried language makes `ParentField.save`
fail with the ParentNotFound `ValueError` referencing the object's name and
the slug) is what the dead `except` arm at fields.py:428-429 clearly
intends, but `QuerySet.first()` returns `None` for an unmatched slug
instead of raising, so the handler never fires and the subsequent
`parent_obj.get_children()` call raises `AttributeError` on `None`
(fields.py:431) outside any handler.  Evaluated at the failing input, the
save surfaces that `AttributeError`, not the ParentNotFound error. -/
theorem parent_save_missing_slug_raises_attribute_error :
    ParentField.save (π := Unit) (σ := Unit)
      { «attribute» := some "parent", column_name := "parent_slug",
        widget := Widget.identity, default := .notProvided,
        readonly := false, saves_null_values := true }
      { isParent := false, objId := some 1, objName := "widget-b",
        translatedFirst := fun _ _ => .ok Option.none,
        childrenContain := fun _ => false, objParent := Option.none,
        addRoot := id, addChild := fun _ s => s,
        move := fun _ s => .ok s, refetch := fun s => .ok s, fixTree := id }
      ["en"] [("parent_slug", PyVal.str "nonexistent-slug")] ()
      = .error (.attributeError "NoneType object has no attribute get_children") := by
  rfl

/-- C8 — when moving an object to a resolved parent, a first move
failure signalled by `AttributeError` (the stale-tree-index symptom, per
the `# because TreeBeard` comment) is recovered by exactly one
`fix_tree()` repair followed by exactly one retried move: the save's
result IS the retried move on the repaired state, so a failure of the
retry is surfaced to the caller unchanged and nothing is retried again. -/
theorem parent_move_retry {π σ : Type} (f : Field) (ctx : TreeCtx π σ)
    (lang : String) (rest : List String) (data : Row) (s : σ)
    (value : PyVal) (parent p₀ : π) (m : String)
    (hro : f.readonly = false)
    (hcl : Field.clean f data = .ok value)
    (hip : ctx.isParent = false)
    (hne : Field.isEmptyValue value = false)
    (hq : ctx.translatedFirst lang value = .ok (some parent))
    (hch : ctx.childrenContain parent = false)
    (hpar : ctx.objParent = some p₀)
    (hmv : ctx.move (some parent) s = .error (.attributeError m)) :
    ParentField.save f ctx (lang :: rest) data s
        = ctx.move (some parent) (ctx.fixTree s)
    ∧ ∀ e, ctx.move (some parent) (ctx.fixTree s) = .error e →
        ParentField.save f ctx (lang :: rest) data s = .error e := by
  have hemp : (value == PyVal.str "" || value == PyVal.none) = false := by
    rw [emptyCheck_eq]; exact hne
  have h1 : ParentField.save f ctx (lang :: rest) data s
      = ctx.move (some parent) (ctx.fixTree s) := by
    simp [ParentField.save, hro, hcl, hip, hemp, hq, hch, hpar, hmv,
      parentMoveExceptArm]
  exact ⟨h1, fun e he => h1.trans he⟩

/-- Witness for C8: a move that fails with `AttributeError` on an unrepaired
state and succeeds after `fix_tree` makes the save perform exactly
repair-then-move, surfacing the retry's successful outcome. -/
theorem parent_move_retry_witness :
    ParentField.save (π := Unit) (σ := List String)
      { «attribute» := some "parent", column_name := "parent_slug",
        widget := Widget.identity, default := .notProvided,
        readonly := false, saves_null_values := true }
      { isParent := false, objId := some 1, objName := "w",
        translatedFirst := fun _ _ => .ok (some ()),
        childrenContain := fun _ => false, objParent := some (),
        addRoot := id, addChild := fun _ s => s,
        move := fun _ tr =>
          if tr.contains "fixed" then .ok (tr ++ ["moved"])
          else .error (.attributeError "stale"),
        refetch := fun s => .ok s, fixTree := fun s => s ++ ["fixed"] }
      ["en"] [("parent_slug", PyVal.str "p")] []
      = .ok ["fixed", "moved"] := by
  exact (parent_move_retry
    { «attribute» := some "parent", column_name := "parent_slug",
      widget := Widget.identity, default := .notProvided,
      readonly := false, saves_null_values := true }
    { isParent := false, objId := some 1, objName := "w",
      translatedFirst := fun _ _ => .ok (some ()),
      childrenContain := fun _ => false, objParent := some (),
      addRoot := id, addChild := fun _ s => s,
      move := fun _ tr =>
        if tr.contains "fixed" then .ok (tr ++ ["moved"])
        else .error (.attributeError "stale"),
      refetch := fun s => .ok s, fixTree := fun s => s ++ ["fixed"] }
    "en" [] [("parent_slug", PyVal.str "p")] [] (.str "p") () () "stale"
    rfl rfl rfl rfl rfl rfl rfl rfl).1.trans rfl

/-- A persisted model instance as the instance loaders see it: flat scalar
columns (relations play no role in the loaders' lookups, so the `__in`
filter below is direct column comparison) plus the per-language slug
variants that `QuerySet.translated(slug=...)` searches. -/
structure Instance where
  attrs : Row
  slugTranslations : List PyVal

/-- The database column value behind `get(**{attr: v})`-style filtering
(an absent column reads as `None`). -/
def Instance.dbAttr (i : Instance) (a : String) : PyVal :=
  match Row.lookup i.attrs a with
  | some v => v
  | Option.none => PyVal.none

/-- The slice of the `Resource` the loaders consult:
`get_import_id_fields()`, the `fields` mapping, and `get_fields()`. -/
structure Resource where
  importIdFields : List String
  fields : List (String × Field)
  allFields : List Field

/-- Lookup `self.resource.fields[key]`; `Option.none` models the `KeyError`. -/
def lookupField (fs : List (String × Field)) (k : String) : Option Field :=
  match fs with
  | [] => Option.none
  | (k', f) :: rest => if k' = k then some f else lookupField rest k

def pyStartsWith (s pat : String) : Bool := pat.data.isPrefixOf s.data

/-- The `re.compile("slug_*")` fallback scan (instance_loaders.py:34-37):
the pattern `slug` followed by zero or more underscores, matched as an
anchored search, succeeds exactly when the attribute starts with `slug`;
`re.match` on a `None` attribute raises `TypeError`.  Returns the first
matching field's attribute together with the field. -/
def findSlugField : List Field → Except PyExn (Option (String × Field))
  | [] => .ok Option.none
  | fi :: rest =>
      match fi.«attribute» with
      | Option.none => .error (.typeError "expected string or bytes-like object")
      | some a =>
          if pyStartsWith a "slug" then .ok (some (a, fi)) else findSlugField rest

/-- Model of `get_queryset().translated(slug=value).first()`: the first instance one
of whose slug variants equals the value; `None` when there is none. -/
def translatedFirstInst (qs : List Instance) (slug : PyVal) : Option Instance :=
  (qs.filter (fun i => i.slugTranslations.any (fun t => PyVal.beq t slug))).head?

/-- Dict update `params[key] = value` (replace the binding or append). -/
def paramsSet (ps : List (Option String × PyVal)) (k : Option String)
    (v : PyVal) : List (Option String × PyVal) :=
  match ps with
  | [] => [(k, v)]
  | (k', w) :: rest =>
      if k' == k then (k', v) :: rest else (k', w) :: paramsSet rest k v

/-- Outcome of the `for key in import_id_fields` loop body: an early
`return` out of `get_instance`, or the accumulated `params`. -/
inductive LoopRes where
  | earlyReturn (r : Option Instance)
  | params (ps : List (Option String × PyVal))

/-- The `for key in self.resource.get_import_id_fields()` loop of
`ModelInstanceLoader.get_instance` (instance_loaders.py:30-39): a falsy
cleaned identifier triggers the slug-fallback early return (or, when no
field's attribute starts with `slug`, silently contributes nothing); a
truthy one is cleaned a second time and stored in `params`. -/
def milLoop (res : Resource) (qs : List Instance) (row : Row) :
    List String → List (Option String × PyVal) → Except PyExn LoopRes
  | [], ps => .ok (.params ps)
  | key :: restKeys, ps =>
      match lookupField res.fields key with
      | Option.none => .error (.keyError key)
      | some field =>
          match Field.clean field row with
          | .error e => .error e
          | .ok v =>
              if !v.truthy then
                match findSlugField res.allFields with
                | .error e => .error e
                | .ok (some (a, _)) =>
                    match Row.lookup row a with
                    | Option.none => .error (.keyError a)
                    | some raw => .ok (.earlyReturn (translatedFirstInst qs raw))
                | .ok Option.none => milLoop res qs row restKeys ps
              else
                match Field.clean field row with
                | .error e => .error e
                | .ok v2 => milLoop res qs row restKeys (paramsSet ps field.«attribute» v2)

/-- Model of `get_queryset().get(**params)`: a `None` key is a `TypeError`; no match
raises the model's `DoesNotExist`, more than one raises
`MultipleObjectsReturned`. -/
def qsGet (qs : List Instance) (ps : List (Option String × PyVal)) :
    Except PyExn (Option Instance) :=
  if ps.any (fun p => p.1 == (Option.none : Option String)) then
    .error (.typeError "keywords must be strings")
  else
    match qs.filter (fun i => ps.all (fun p =>
        match p.1 with
        | some a => PyVal.beq (i.dbAttr a) p.2
        | Option.none => true)) with
    | [] => .error (.doesNotExist "Model")
    | [i] => .ok (some i)
    | _ => .error (.multipleObjectsReturned "get() returned more than one")

/-- Model of `ModelInstanceLoader.get_instance(row)` (instance_loaders.py:27-42):
the whole body sits in `try ... except model.DoesNotExist: return None`. -/
def ModelInstanceLoader.get_instance (res : Resource) (qs : List Instance)
    (row : Row) : Except PyExn (Option Instance) :=
  match milLoop res qs row res.importIdFields [] with
  | .error (.doesNotExist _) => .ok Option.none
  | .error e => .error e
  | .ok (.earlyReturn r) => .ok r
  | .ok (.params ps) =>
      match qsGet qs ps with
      | .error (.doesNotExist _) => .ok Option.none
      | .error e => .error e
      | .ok r => .ok r

/-- The comprehension `[self.pk_field.clean(row) for row in self.dataset.dict]`. -/
def cleanAll (pk : Field) : List Row → Except PyExn (List PyVal)
  | [] => .ok []
  | r :: rest =>
      match Field.clean pk r with
      | .error e => .error e
      | .ok v =>
          match cleanAll pk rest with
          | .error e => .error e
          | .ok vs => .ok (v :: vs)

/-- The state a constructed `CachedInstanceLoader` carries: the single
identifier field and the prefetch dict as its insertion list. -/
structure Cache where
  pk_field : Field
  all_instances : List (PyVal × Instance)

/-- Python dict lookup over the insertion list: the value of the latest
binding whose key compares equal (later insertions overwrite earlier
equal keys). -/
def dictGet (pairs : List (PyVal × Instance)) (k : PyVal) : Option Instance :=
  (pairs.reverse.find? (fun p => PyVal.beq p.1 k)).map Prod.snd

/-- Model of `Field.get_value` specialised to flat instances: a single-segment
attribute reads the column (an absent or `None` value is `None`, scalars
are not callable); any longer path steps from a scalar and so resolves
`None` (fields.py:120-127). -/
def Field.getValueFlat (f : Field) (inst : Instance) : PyVal :=
  match f.«attribute» with
  | Option.none => PyVal.none
  | some a =>
      match splitOnDunder a with
      | [_] => inst.dbAttr a
      | _ => PyVal.none

/-- Model of `CachedInstanceLoader.__init__` (instance_loaders.py:54-67): take the
first (and by the documented precondition only) identifier field, clean
every dataset row, prefetch `filter(attribute__in=ids)` and key the dict by
`pk_field.get_value(instance)`. -/
def CachedInstanceLoader.build (res : Resource) (qs : List Instance)
    (dataset : List Row) : Except PyExn Cache :=
  match res.importIdFields.head? with
  | Option.none => .error .indexError
  | some pkName =>
      match lookupField res.fields pkName with
      | Option.none => .error (.keyError pkName)
      | some pk =>
          match cleanAll pk dataset with
          | .error e => .error e
          | .ok ids =>
              match pk.«attribute» with
              | Option.none => .error (.valueError "FieldError: cannot resolve keyword")
              | some attr =>
                  .ok ⟨pk, (qs.filter (fun i =>
                      ids.any (fun w => PyVal.beq (i.dbAttr attr) w))).map
                    (fun i => (Field.getValueFlat pk i, i))⟩

/-- Model of `CachedInstanceLoader.get_instance(row)` (instance_loaders.py:69-70). -/
def CachedInstanceLoader.get_instance (c : Cache) (row : Row) :
    Except PyExn (Option Instance) :=
  match Field.clean c.pk_field row with
  | .error e => .error e
  | .ok v => .ok (dictGet c.all_instances v)

/-- C3 counterexample — the claimed equivalence fails as stated: for a
row whose single identifier cleans to the falsy `''`,
`ModelInstanceLoader.get_instance` takes the undocumented slug-fallback
path and resolves the instance by its translated slug, while
`CachedInstanceLoader` (built over the same one-row dataset and the same
loader configuration) consults its prefetch dict and returns no instance. -/
theorem cached_vs_model_loader_counterexample :
    ModelInstanceLoader.get_instance
        ⟨["id"],
          [("id", ⟨some "id", "id", Widget.identity, .notProvided, false, true⟩)],
          [⟨some "slug_en", "slug_en", Widget.identity, .notProvided, false, true⟩]⟩
        [⟨[("id", PyVal.int 1)], [PyVal.str "widget-a"]⟩]
        [("id", PyVal.str ""), ("slug_en", PyVal.str "widget-a")]
      = .ok (some ⟨[("id", PyVal.int 1)], [PyVal.str "widget-a"]⟩)
    ∧ CachedInstanceLoader.build
        ⟨["id"],
          [("id", ⟨some "id", "id", Widget.identity, .notProvided, false, true⟩)],
          [⟨some "slug_en", "slug_en", Widget.identity, .notProvided, false, true⟩]⟩
        [⟨[("id", PyVal.int 1)], [PyVal.str "widget-a"]⟩]
        [[("id", PyVal.str ""), ("slug_en", PyVal.str "widget-a")]]
      = .ok ⟨⟨some "id", "id", Widget.identity, .notProvided, false, true⟩, []⟩
    ∧ CachedInstanceLoader.get_instance
        ⟨⟨some "id", "id", Widget.identity, .notProvided, false, true⟩, []⟩
        [("id", PyVal.str ""), ("slug_en", PyVal.str "widget-a")]
      = .ok Option.none := by
  exact ⟨rfl, rfl, rfl⟩

lemma cleanAll_mem (pk : Field) (D : List Row) (ids : List PyVal) (r : Row)
    (v : PyVal) (hca : cleanAll pk D = .ok ids) (hr : r ∈ D)
    (hcl : Field.clean pk r = .ok v) : v ∈ ids := by
  induction D generalizing ids with
  | nil => cases hr
  | cons d rest ih =>
      rw [cleanAll] at hca
      cases hd : Field.clean pk d with
      | error e => rw [hd] at hca; cases hca
      | ok w =>
          rw [hd] at hca
          cases hrest : cleanAll pk rest with
          | error e => rw [hrest] at hca; cases hca
          | ok ws =>
              rw [hrest] at hca
              cases hca
              rcases List.mem_cons.mp hr with hre | hrm
              · subst hre
                rw [hcl] at hd
                cases hd
                exact List.mem_cons_self _ _
              · exact List.mem_cons_of_mem _ (ih ws hrest hrm)

lemma find?_eq_some_of_unique {α} (l : List α) (pred : α → Bool) (x : α)
    (hx : x ∈ l) (hpx : pred x = true)
    (huni : ∀ y ∈ l, pred y = true → y = x) :
    l.find? pred = some x := by
  induction l with
  | nil => cases hx
  | cons b tl ih =>
      cases hpb : pred b with
      | false =>
          rw [List.find?_cons_of_neg _ (by simp [hpb])]
          rcases List.mem_cons.mp hx with hxe | hxm
          · subst hxe; rw [hpx] at hpb; cases hpb
          · exact ih hxm (fun y hy hpy => huni y (List.mem_cons_of_mem _ hy) hpy)
      | true =>
          rw [List.find?_cons_of_pos _ hpb]
          exact congrArg some (huni b (List.mem_cons_self _ _) hpb)

/-- C3 corrected — the loader equivalence that does hold: over the
rows of the dataset whose single, single-segment identifier field cleans to
a truthy value, and when the store holds at most one instance carrying that
identifier value, the constructed `CachedInstanceLoader` returns the same
instance (or the same absence) as `ModelInstanceLoader.get_instance`. -/
theorem cached_loader_agrees_on_truthy_ids
    (res : Resource) (qs : List Instance) (D : List Row) (r : Row)
    (k : String) (pk : Field) (a : String) (v : PyVal) (c : Cache)
    (hids : res.importIdFields = [k])
    (hpk : lookupField res.fields k = some pk)
    (ha : pk.«attribute» = some a)
    (hseg : splitOnDunder a = [a])
    (hr : r ∈ D)
    (hcl : Field.clean pk r = .ok v)
    (htr : v.truthy = true)
    (hbuild : CachedInstanceLoader.build res qs D = .ok c)
    (huniq : (qs.filter (fun i => PyVal.beq (i.dbAttr a) v)).length ≤ 1) :
    CachedInstanceLoader.get_instance c r
      = ModelInstanceLoader.get_instance res qs r := by
  -- decompose the successful construction
  cases hca : cleanAll pk D with
  | error e =>
      have hb2 : CachedInstanceLoader.build res qs D = .error e := by
        simp [CachedInstanceLoader.build, hids, hpk, hca]
      rw [hb2] at hbuild
      cases hbuild
  | ok ids =>
      have hb2 : CachedInstanceLoader.build res qs D
          = .ok ⟨pk, (qs.filter (fun i =>
              ids.any (fun w => PyVal.beq (i.dbAttr a) w))).map
                (fun i => (Field.getValueFlat pk i, i))⟩ := by
        simp [CachedInstanceLoader.build, hids, hpk, hca, ha]
      rw [hb2] at hbuild
      have hc : c = ⟨pk, (qs.filter (fun i =>
          ids.any (fun w => PyVal.beq (i.dbAttr a) w))).map
            (fun i => (Field.getValueFlat pk i, i))⟩ := by
        cases hbuild; rfl
      subst hc
      have hgv : ∀ j : Instance, Field.getValueFlat pk j = j.dbAttr a := by
        intro j; simp [Field.getValueFlat, ha, hseg]
      cases hf : qs.filter (fun i => PyVal.beq (i.dbAttr a) v) with
      | nil =>
          -- no instance carries the identifier: both loaders yield absence
          have hnone : dictGet ((qs.filter (fun i =>
              ids.any (fun w => PyVal.beq (i.dbAttr a) w))).map
                (fun i => (Field.getValueFlat pk i, i))) v = Option.none := by
            rw [dictGet, List.find?_eq_none.mpr]
            · rfl
            intro y hy
            rw [List.mem_reverse] at hy
            obtain ⟨j, hj, rfl⟩ := List.mem_map.mp hy
            have hjq : j ∈ qs := List.mem_of_mem_filter hj
            intro hpy
            rw [hgv] at hpy
            have hmem : j ∈ qs.filter (fun i => PyVal.beq (i.dbAttr a) v) :=
              List.mem_filter.mpr ⟨hjq, hpy⟩
            rw [hf] at hmem
            cases hmem
          simp [CachedInstanceLoader.get_instance, hcl, hnone,
            ModelInstanceLoader.get_instance, hids, milLoop, hpk, htr,
            qsGet, paramsSet, ha, hf]
      | cons i tl =>
          cases tl with
          | cons i2 tl2 => rw [hf] at huniq; simp at huniq
          | nil =>
              -- the unique matching instance: the dict returns exactly it
              have hiq : i ∈ qs ∧ PyVal.beq (i.dbAttr a) v = true := by
                have hmem : i ∈ qs.filter (fun i => PyVal.beq (i.dbAttr a) v) := by
                  rw [hf]; exact List.mem_cons_self _ _
                exact ⟨(List.mem_filter.mp hmem).1, (List.mem_filter.mp hmem).2⟩
              have hvids : v ∈ ids := cleanAll_mem pk D ids r v hca hr hcl
              have hifil : i ∈ qs.filter (fun i =>
                  ids.any (fun w => PyVal.beq (i.dbAttr a) w)) := by
                refine List.mem_filter.mpr ⟨hiq.1, ?_⟩
                exact List.any_eq_true.mpr ⟨v, hvids, hiq.2⟩
              have hsome : dictGet ((qs.filter (fun i =>
                  ids.any (fun w => PyVal.beq (i.dbAttr a) w))).map
                    (fun i => (Field.getValueFlat pk i, i))) v = some i := by
                rw [dictGet]
                rw [find?_eq_some_of_unique _ _ (Field.getValueFlat pk i, i)]
                · rfl
                · rw [List.mem_reverse]
                  exact List.mem_map.mpr ⟨i, hifil, rfl⟩
                · rw [hgv]; exact hiq.2
                · intro y hy hpy
                  rw [List.mem_reverse] at hy
                  obtain ⟨j, hj, rfl⟩ := List.mem_map.mp hy
                  rw [hgv] at hpy
                  have hjq : j ∈ qs := List.mem_of_mem_filter hj
                  have hmem : j ∈ qs.filter (fun i => PyVal.beq (i.dbAttr a) v) :=
                    List.mem_filter.mpr ⟨hjq, hpy⟩
                  rw [hf] at hmem
                  rcases List.mem_cons.mp hmem with hje | hje
                  · subst hje; rfl
                  · cases hje
              simp [CachedInstanceLoader.get_instance, hcl, hsome,
                ModelInstanceLoader.get_instance, hids, milLoop, hpk, htr,
                qsGet, paramsSet, ha, hf]

/-- Witness for the corrected C3: a truthy identifier row on a one-instance
store where both loaders resolve the same instance. -/
theorem cached_loader_agrees_on_truthy_ids_witness :
    CachedInstanceLoader.get_instance
        ⟨⟨some "id", "id", Widget.identity, .notProvided, false, true⟩,
          [(PyVal.int 1, ⟨[("id", PyVal.int 1)], [PyVal.str "widget-a"]⟩)]⟩
        [("id", PyVal.int 1)]
      = ModelInstanceLoader.get_instance
          ⟨["id"],
            [("id", ⟨some "id", "id", Widget.identity, .notProvided, false, true⟩)],
            [⟨some "slug_en", "slug_en", Widget.identity, .notProvided, false, true⟩]⟩
          [⟨[("id", PyVal.int 1)], [PyVal.str "widget-a"]⟩]
          [("id", PyVal.int 1)] := by
  exact cached_loader_agrees_on_truthy_ids
    ⟨["id"],
      [("id", ⟨some "id", "id", Widget.identity, .notProvided, false, true⟩)],
      [⟨some "slug_en", "slug_en", Widget.identity, .notProvided, false, true⟩]⟩
    [⟨[("id", PyVal.int 1)], [PyVal.str "widget-a"]⟩]
    [[("id", PyVal.int 1)]] [("id", PyVal.int 1)]
    "id" ⟨some "id", "id", Widget.identity, .notProvided, false, true⟩
    "id" (PyVal.int 1)
    ⟨⟨some "id", "id", Widget.identity, .notProvided, false, true⟩,
      [(PyVal.int 1, ⟨[("id", PyVal.int 1)], [PyVal.str "widget-a"]⟩)]⟩
    rfl rfl rfl rfl (List.mem_singleton.mpr rfl) rfl rfl rfl (by decide)

end ImportExport
